import Mathlib

/-!
Shallow embedding of `src/MAVProxy/modules/mavproxy_breaker.py` (class
`BreakerModule`).

The module keeps a tracked-device set `self._devices` and mutates two pieces
of process-wide state: the live-connection list `self.mpstate.mav_outputs`
and the identity-route map `self.mpstate.sysid_outputs`.  The embedding
models that shared state, plus the set of closed connection handles, the
descriptor list passed to `mp_util.child_fd_list_add`, and the lines printed
to the user, as one record `MPState`.  Each handler of the Python class
becomes a state transformer.

External collaborators not present under `src/` are modelled from the spec:
link establishment (`mavutil.mavlink_connection`) is a call that either
fails (parameter `connects` returns `false`) or yields a fresh handle, and
descriptor registration is best-effort bookkeeping.  Python's set iteration
semantics (a `RuntimeError` is raised by the iterator's next step whenever
the set's size has changed since the iterator was created, including the
terminating step) and its list iteration semantics (the cursor advances over
the mutated list, so `pop(i)` at the cursor skips the element that shifts
into slot `i`) are modelled explicitly where the handlers rely on them.
-/

/-- Connection handle returned by the link-establishment collaborator.
`mavutil.mavlink_connection` is not part of `src/`.  Modelled from the spec:
`establishConnection(deviceId, sourceSystemId, sourceComponentId)` returns a
handle exposing `.address` — the string matched by
`breaker remove <deviceId-or-index>`, hence the device identifier itself —
and an underlying descriptor for monitoring registration, modelled by the
fresh numeric handle identity `id` (standing for `conn.port.fileno()`). -/
structure Conn where
  id : Nat
  address : String
deriving DecidableEq, Repr

/-- Process-wide state touched by `BreakerModule`: the live-connection list
`mpstate.mav_outputs`, the identity-route map `mpstate.sysid_outputs`
(a Python dict, modelled as an insertion-ordered association list), the
tracked-device set `self._devices` (a Python set, modelled as an
insertion-ordered duplicate-free list), the identities of connections whose
`close()` has been invoked, the descriptors handed to
`mp_util.child_fd_list_add`, the next fresh handle identity, and the lines
printed to the user. -/
structure MPState where
  mav_outputs : List Conn
  sysid_outputs : List (String × Conn)
  devices : List String
  closed : List Nat
  child_fds : List Nat
  nextId : Nat
  printed : List String
deriving DecidableEq, Repr

/-- Match test of `handle_remove`: the loop body's condition
`str(i) == device or conn.address == device` for the connection currently
sitting at list position `c`, where `c` is also the running `enumerate`
counter. -/
def matchSel (sel : String) (c : Nat) (conn : Conn) : Bool :=
  decide (toString c = sel) || decide (conn.address = sel)

/-- Scan of `handle_remove`'s loop
`for i, conn in enumerate(self.mpstate.mav_outputs)` with
`self.mpstate.mav_outputs.pop(i)` executed on a match.  Python's list
iterator keeps a cursor into the live list, so after `pop(i)` at the cursor
the element that shifts into slot `i` is never examined; the `enumerate`
counter stays equal to the cursor throughout.  Returns the resulting list
and the connections popped (and closed), in pop order. -/
def scanRemove (sel : String) : Nat → List Conn → List Conn × List Conn
  | _, [] => ([], [])
  | c, conn :: rest =>
    if matchSel sel c conn then
      match rest with
      | [] => ([], [conn])
      | skipped :: rest2 =>
        let r := scanRemove sel (c + 1) rest2
        (skipped :: r.1, conn :: r.2)
    else
      let r := scanRemove sel (c + 1) rest
      (conn :: r.1, r.2)

/-- Embedding of `BreakerModule.handle_remove`.  Each popped connection is
closed, its descriptor is passed to `mp_util.child_fd_list_add` (the code
calls the add function here, not a removal), a removal line is printed, and
`self._devices.discard(device)` runs — only inside the match branch, so the
tracked-device set is only touched when at least one connection matched. -/
def handle_remove (device : String) (s : MPState) : MPState :=
  let r := scanRemove device 0 s.mav_outputs
  { s with
      mav_outputs := r.1
      closed := s.closed ++ r.2.map Conn.id
      child_fds := s.child_fds ++ r.2.map Conn.id
      devices := if r.2 = [] then s.devices else s.devices.erase device
      printed := s.printed ++ r.2.map (fun c => "Removing breaker " ++ c.address) }

/-- Python set `add`: insertion into the duplicate-free list model of
`self._devices` (no effect when the element is already present). -/
def insertDevice (d : String) (ds : List String) : List String :=
  if d ∈ ds then ds else ds ++ [d]

/-- Embedding of `BreakerModule.handle_add`.  The link-establishment call
may fail (`connects device = false`): the failure is printed and the handler
returns with no state mutation beyond the printed lines.  On success the
fresh connection is appended to `mav_outputs`, its descriptor registered,
and the device identifier added to `self._devices`. -/
def handle_add (connects : String → Bool) (device : String) (s : MPState) : MPState :=
  let s0 := { s with printed := s.printed ++ ["Adding breaker " ++ device] }
  if connects device then
    let conn : Conn := ⟨s0.nextId, device⟩
    { s0 with
        mav_outputs := s0.mav_outputs ++ [conn]
        child_fds := s0.child_fds ++ [conn.id]
        devices := insertDevice device s0.devices
        nextId := s0.nextId + 1 }
  else
    { s0 with printed := s0.printed ++ ["Breaker failed to connect to " ++ device] }

/-- Dict lookup `self.mpstate.sysid_outputs[sysid]` on the association-list
model of the identity-route map. -/
def lookupRoute (sysid : String) : List (String × Conn) → Option Conn
  | [] => none
  | (k, c) :: rest => if k = sysid then some c else lookupRoute sysid rest

/-- Dict update `self.mpstate.sysid_outputs[sysid] = conn`: replaces the
value in place when the key is present, otherwise appends (Python dicts
preserve insertion order). -/
def setRoute (sysid : String) (conn : Conn) : List (String × Conn) → List (String × Conn)
  | [] => [(sysid, conn)]
  | (k, c) :: rest =>
    if k = sysid then (sysid, conn) :: rest else (k, c) :: setRoute sysid conn rest

/-- Embedding of `BreakerModule.handle_sysid`.  On establishment failure the
handler prints and returns without mutation.  On success it registers the
descriptor, closes the previous connection routed for `sysid` when one
exists, stores the new connection under `sysid`, and records the device in
`self._devices`. -/
def handle_sysid (connects : String → Bool) (sysid device : String) (s : MPState) : MPState :=
  let s0 := { s with
      printed := s.printed ++ ["Adding breaker " ++ device ++ " for sysid " ++ sysid] }
  if connects device then
    let conn : Conn := ⟨s0.nextId, device⟩
    { s0 with
        child_fds := s0.child_fds ++ [conn.id]
        closed := s0.closed ++
          (match lookupRoute sysid s0.sysid_outputs with
           | some old => [old.id]
           | none => [])
        sysid_outputs := setRoute sysid conn s0.sysid_outputs
        devices := insertDevice device s0.devices
        nextId := s0.nextId + 1 }
  else
    { s0 with printed := s0.printed ++ ["Breaker failed to connect to " ++ device] }

/-- Embedding of `BreakerModule.handle_list`: a defined no-op (`pass`). -/
def handle_list (s : MPState) : MPState := s

/-- Python runtime error surfaced by the command dispatcher.  The `sysid`
branch of `handle_command` calls `self.handle_breaker(*args[1:])`, a method
defined nowhere in the class; the base class `mp_module.MPModule` is not
part of `src/` and, Modelled from the spec: the spec's command surface and
component design define no such operation on the controller, so the
attribute lookup fails at call time. -/
inductive PyErr where
  | attributeError
deriving DecidableEq, Repr

/-- Embedding of `BreakerModule.handle_command`: subcommand dispatch with
per-subcommand arity validation.  Empty argument lists and `list` go to
`handle_list`; `add` and `remove` require exactly one further token;
`sysid` requires exactly two further tokens and then raises
`AttributeError` (see `PyErr`); anything else prints the generic usage
line. -/
def handle_command (connects : String → Bool) (args : List String) (s : MPState) :
    Except PyErr MPState :=
  match args with
  | [] => .ok (handle_list s)
  | a0 :: rest =>
    if a0 = "list" then .ok (handle_list s)
    else if a0 = "add" then
      match rest with
      | [d] => .ok (handle_add connects d s)
      | _ => .ok { s with printed := s.printed ++ ["Usage: breaker add DEVICE"] }
    else if a0 = "remove" then
      match rest with
      | [d] => .ok (handle_remove d s)
      | _ => .ok { s with printed := s.printed ++ ["Usage: breaker remove DEVICE"] }
    else if a0 = "sysid" then
      match rest with
      | [_, _] => .error PyErr.attributeError
      | _ => .ok { s with printed := s.printed ++ ["Usage: breaker sysid SYSID DEVICE"] }
    else .ok { s with printed := s.printed ++ ["usage: breaker <list|add|remove|sysid>"] }

/-- Telemetry message as seen by `mavlink_packet`: its type tag
(`m.get_type()`) and, for fence-status reports, the `breach_status` field
(a MAVLink `uint8`). -/
structure Msg where
  msgtype : String
  breach_status : Nat
deriving DecidableEq, Repr

/-- Outcome of running `mavlink_packet`: whether a `RuntimeError` escaped
the handler, together with the state at that point (the state reached when
the error propagates, or the final state on normal completion). -/
structure RunOut where
  raised : Bool
  state : MPState
deriving DecidableEq, Repr

/-- The loop `for device in self._devices: self.handle_remove(device)` of
`mavlink_packet`.  CPython's set iterator records the set's size when
created and checks it before yielding every element, and once more on the
terminating step; any size change raises
`RuntimeError: Set changed size during iteration`.  Only the device just
yielded can be discarded by `handle_remove`, so iterating the snapshot list
with the live size check is a faithful model.  `n0` is the recorded size. -/
def breachLoop (n0 : Nat) : List String → MPState → RunOut
  | [], s => if s.devices.length = n0 then ⟨false, s⟩ else ⟨true, s⟩
  | d :: rest, s =>
    if s.devices.length = n0 then breachLoop n0 rest (handle_remove d s)
    else ⟨true, s⟩

/-- Embedding of `BreakerModule.mavlink_packet`: on a `FENCE_STATUS` message
with `breach_status == 1` it prints the breach line and runs the teardown
loop over the tracked-device set; every other message leaves the state
untouched. -/
def mavlink_packet (m : Msg) (s : MPState) : RunOut :=
  if m.msgtype = "FENCE_STATUS" ∧ m.breach_status = 1 then
    let s0 := { s with
        printed := s.printed ++ ["Fence breach detected. Disconnecting breaker."] }
    breachLoop s0.devices.length s0.devices s0
  else ⟨false, s⟩

/-- Removing the element most recently appended to a list, by its index. -/
theorem eraseIdx_append_len (l : List Conn) (x : Conn) :
    (l ++ [x]).eraseIdx l.length = l := by
  induction l with
  | nil => rfl
  | cons y rest ih => simp [List.eraseIdx, ih]

/-- Unfolding of a failed match test into its two disequalities. -/
theorem matchSel_eq_false {sel : String} {c : Nat} {x : Conn} :
    matchSel sel c x = false ↔ ¬toString c = sel ∧ ¬x.address = sel := by
  simp [matchSel]

/-- Unfolding of the scan on a non-matching head connection. -/
theorem scanRemove_cons_false (sel : String) (c : Nat) (conn : Conn) (rest : List Conn)
    (h : matchSel sel c conn = false) :
    scanRemove sel c (conn :: rest) =
      (conn :: (scanRemove sel (c + 1) rest).1, (scanRemove sel (c + 1) rest).2) := by
  rw [scanRemove.eq_def]
  simp [h]

/-- Unfolding of the scan when the head matches and at least one element
follows: the popped head is closed and its successor is skipped. -/
theorem scanRemove_cons_match (sel : String) (c : Nat) (conn skipped : Conn)
    (rest2 : List Conn) (h : matchSel sel c conn = true) :
    scanRemove sel c (conn :: skipped :: rest2) =
      (skipped :: (scanRemove sel (c + 1) rest2).1,
        conn :: (scanRemove sel (c + 1) rest2).2) := by
  rw [scanRemove.eq_def]
  simp [h]

/-- Unfolding of the scan when the last element matches. -/
theorem scanRemove_last_match (sel : String) (c : Nat) (conn : Conn)
    (h : matchSel sel c conn = true) :
    scanRemove sel c [conn] = ([], [conn]) := by
  rw [scanRemove.eq_def]
  simp [h]

/-- Both components of the scan result only contain connections of the
input list. -/
theorem scanRemove_subsets (sel : String) (c : Nat) (l : List Conn) :
    (∀ y ∈ (scanRemove sel c l).1, y ∈ l) ∧ ∀ y ∈ (scanRemove sel c l).2, y ∈ l := by
  induction c, l using scanRemove.induct sel with
  | case1 c => simp [scanRemove]
  | case2 c conn hm => simp [scanRemove_last_match sel c conn hm]
  | case3 c conn hm skipped rest2 ih =>
    rw [scanRemove_cons_match sel c conn skipped rest2 hm]
    constructor
    · intro y hy
      rcases List.mem_cons.mp hy with h | h
      · simp [h]
      · simp [List.mem_cons.mpr (Or.inr (List.mem_cons.mpr (Or.inr (ih.1 y h))))]
    · intro y hy
      rcases List.mem_cons.mp hy with h | h
      · simp [h]
      · simp [List.mem_cons.mpr (Or.inr (List.mem_cons.mpr (Or.inr (ih.2 y h))))]
  | case4 c conn rest hm ih =>
    rw [scanRemove_cons_false sel c conn rest (by simpa using hm)]
    constructor
    · intro y hy
      rcases List.mem_cons.mp hy with h | h
      · simp [h]
      · exact List.mem_cons.mpr (Or.inr (ih.1 y h))
    · intro y hy
      exact List.mem_cons.mpr (Or.inr (ih.2 y hy))

/-- Scan with no matching position anywhere: the list is returned unchanged
and nothing is closed.  Position `k` of the list is examined with the
`enumerate` counter `c + k`. -/
theorem scanRemove_noMatch (sel : String) (c : Nat) (l : List Conn)
    (hall : ∀ (k : Nat) (hk : k < l.length), matchSel sel (c + k) (l.get ⟨k, hk⟩) = false) :
    scanRemove sel c l = (l, []) := by
  induction c, l using scanRemove.induct sel with
  | case1 c => simp [scanRemove]
  | case2 c conn hm =>
    have h0 : matchSel sel c conn = false := by simpa using hall 0 (by simp)
    rw [hm] at h0
    cases h0
  | case3 c conn hm skipped rest2 ih =>
    have h0 : matchSel sel c conn = false := by simpa using hall 0 (by simp)
    rw [hm] at h0
    cases h0
  | case4 c conn rest hm ih =>
    have hrest : ∀ (k : Nat) (hk : k < rest.length),
        matchSel sel (c + 1 + k) (rest.get ⟨k, hk⟩) = false := by
      intro k hk
      have h2 := hall (k + 1) (Nat.succ_lt_succ hk)
      have h3 : c + (k + 1) = c + 1 + k := by omega
      rw [h3] at h2
      exact h2
    rw [scanRemove_cons_false sel c conn rest (by simpa using hm), ih hrest]

/-- Scan with exactly one matching position `i` (over the counters the loop
actually uses): precisely the connection at position `i` is popped and
closed, leaving `l.eraseIdx i`. -/
theorem scanRemove_unique (sel : String) (c : Nat) (l : List Conn) (i : Nat)
    (hi : i < l.length)
    (hmi : matchSel sel (c + i) (l.get ⟨i, hi⟩) = true)
    (hu : ∀ (j : Nat) (hj : j < l.length), j ≠ i →
      matchSel sel (c + j) (l.get ⟨j, hj⟩) = false) :
    scanRemove sel c l = (l.eraseIdx i, [l.get ⟨i, hi⟩]) := by
  induction c, l using scanRemove.induct sel generalizing i with
  | case1 c => exact absurd hi (by simp)
  | case2 c conn hm =>
    have hi0 : i = 0 := by
      have : i < 1 := by simpa using hi
      omega
    subst hi0
    simp [scanRemove_last_match sel c conn hm]
  | case3 c conn hm skipped rest2 ih =>
    have hi0 : i = 0 := by
      by_contra hne
      have h0 : matchSel sel c conn = false := by
        simpa using hu 0 (by simp) (fun h => hne h.symm)
      rw [hm] at h0
      cases h0
    subst hi0
    have hno : scanRemove sel (c + 1) rest2 = (rest2, []) := by
      apply scanRemove_noMatch
      intro k hk
      have ha : matchSel sel (c + (k + 2)) ((conn :: skipped :: rest2).get
          ⟨k + 2, by simpa using Nat.succ_lt_succ (Nat.succ_lt_succ hk)⟩) = false :=
        hu (k + 2) (by simpa using Nat.succ_lt_succ (Nat.succ_lt_succ hk)) (by omega)
      have hb : matchSel sel (c + (k + 1)) ((conn :: skipped :: rest2).get
          ⟨k + 1, by simpa using Nat.succ_lt_succ (Nat.lt_succ_of_lt hk)⟩) = false :=
        hu (k + 1) (by simpa using Nat.succ_lt_succ (Nat.lt_succ_of_lt hk)) (by omega)
      rw [matchSel_eq_false] at ha hb ⊢
      constructor
      · have h3 : c + 1 + k = c + (k + 1) := by omega
        rw [h3]
        exact hb.1
      · exact ha.2
    rw [scanRemove_cons_match sel c conn skipped rest2 hm, hno]
    simp
  | case4 c conn rest hm ih =>
    cases i with
    | zero =>
      have h0 : matchSel sel c conn = true := by simpa using hmi
      exact absurd h0 hm
    | succ j =>
      have hj : j < rest.length := by simpa using hi
      have hmj : matchSel sel (c + 1 + j) (rest.get ⟨j, hj⟩) = true := by
        have h3 : c + 1 + j = c + (j + 1) := by omega
        rw [h3]
        exact hmi
      have huj : ∀ (k : Nat) (hk : k < rest.length), k ≠ j →
          matchSel sel (c + 1 + k) (rest.get ⟨k, hk⟩) = false := by
        intro k hk hkj
        have h3 : c + 1 + k = c + (k + 1) := by omega
        rw [h3]
        exact hu (k + 1) (Nat.succ_lt_succ hk) (by omega)
      rw [scanRemove_cons_false sel c conn rest (by simpa using hm),
        ih j hj hmj huj]
      simp [List.eraseIdx]

/-- Scan with at least one matching position: at least one connection is
popped and closed. -/
theorem scanRemove_snd_ne_nil (sel : String) (c : Nat) (l : List Conn) (i : Nat)
    (hi : i < l.length)
    (hmi : matchSel sel (c + i) (l.get ⟨i, hi⟩) = true) :
    (scanRemove sel c l).2 ≠ [] := by
  induction c, l using scanRemove.induct sel generalizing i with
  | case1 c => exact absurd hi (by simp)
  | case2 c conn hm => simp [scanRemove_last_match sel c conn hm]
  | case3 c conn hm skipped rest2 ih =>
    simp [scanRemove_cons_match sel c conn skipped rest2 hm]
  | case4 c conn rest hm ih =>
    cases i with
    | zero =>
      have h0 : matchSel sel c conn = true := by simpa using hmi
      exact absurd h0 hm
    | succ j =>
      have hj : j < rest.length := by simpa using hi
      have hmj : matchSel sel (c + 1 + j) (rest.get ⟨j, hj⟩) = true := by
        have h3 : c + 1 + j = c + (j + 1) := by omega
        rw [h3]
        exact hmi
      rw [scanRemove_cons_false sel c conn rest (by simpa using hm)]
      exact ih j hj hmj

/-- Looking up the key just stored finds the stored connection. -/
theorem lookupRoute_setRoute_self (sy : String) (c : Conn) (l : List (String × Conn)) :
    lookupRoute sy (setRoute sy c l) = some c := by
  induction l with
  | nil => simp [setRoute, lookupRoute]
  | cons p rest ih =>
    obtain ⟨k, v⟩ := p
    by_cases h : k = sy
    · simp [setRoute, lookupRoute, h]
    · simp [setRoute, lookupRoute, h, ih]

/-- A successful route lookup exhibits a map entry under that identity. -/
theorem lookupRoute_mem (sy : String) (l : List (String × Conn)) (c : Conn)
    (h : lookupRoute sy l = some c) : (sy, c) ∈ l := by
  induction l with
  | nil => cases h
  | cons p rest ih =>
    obtain ⟨k, v⟩ := p
    by_cases hk : k = sy
    · subst hk
      simp [lookupRoute] at h
      subst h
      exact List.mem_cons_self _ _
    · simp [lookupRoute, hk] at h
      exact List.mem_cons_of_mem _ (ih h)

/-- Storing a route either leaves the key sequence unchanged (replacement in
place) or appends the new key. -/
theorem setRoute_keys (sy : String) (c : Conn) (l : List (String × Conn)) :
    (setRoute sy c l).map Prod.fst =
      if sy ∈ l.map Prod.fst then l.map Prod.fst else l.map Prod.fst ++ [sy] := by
  induction l with
  | nil => simp [setRoute]
  | cons p rest ih =>
    obtain ⟨k, v⟩ := p
    by_cases h : k = sy
    · subst h
      simp [setRoute]
    · by_cases hmem : sy ∈ rest.map Prod.fst
      · simp [setRoute, h, ih, hmem, Ne.symm h]
      · simp [setRoute, h, ih, hmem, Ne.symm h]

/-- Storing a route keeps the identity keys duplicate-free. -/
theorem setRoute_keys_nodup (sy : String) (c : Conn) (l : List (String × Conn))
    (h : (l.map Prod.fst).Nodup) : ((setRoute sy c l).map Prod.fst).Nodup := by
  rw [setRoute_keys]
  by_cases hmem : sy ∈ l.map Prod.fst
  · simpa [hmem] using h
  · simp only [hmem, if_false]
    simp [List.nodup_append, h, hmem]

/-- Frame facts of one `handle_remove` call: the identity-route map is
untouched, every newly closed identity comes from the live-connection list,
and the live-connection list only shrinks. -/
theorem handle_remove_frame (d : String) (s : MPState) :
    (handle_remove d s).sysid_outputs = s.sysid_outputs ∧
    (∀ x ∈ (handle_remove d s).closed, x ∈ s.closed ∨ x ∈ s.mav_outputs.map Conn.id) ∧
    ∀ x ∈ (handle_remove d s).mav_outputs.map Conn.id, x ∈ s.mav_outputs.map Conn.id := by
  refine ⟨rfl, ?_, ?_⟩
  · intro x hx
    simp only [handle_remove] at hx
    rcases List.mem_append.mp hx with h | h
    · exact Or.inl h
    · rcases List.mem_map.mp h with ⟨y, hy, hxy⟩
      exact Or.inr (List.mem_map.mpr ⟨y, (scanRemove_subsets d 0 s.mav_outputs).2 y hy, hxy⟩)
  · intro x hx
    simp only [handle_remove] at hx
    rcases List.mem_map.mp hx with ⟨y, hy, hxy⟩
    exact List.mem_map.mpr ⟨y, (scanRemove_subsets d 0 s.mav_outputs).1 y hy, hxy⟩

/-- Frame facts of the whole breach-teardown loop, whether or not it
completes: the identity-route map is untouched and every newly closed
identity comes from the live-connection list the loop started from. -/
theorem breachLoop_frame (n0 : Nat) (ds : List String) (s : MPState) :
    (breachLoop n0 ds s).state.sysid_outputs = s.sysid_outputs ∧
    (∀ x ∈ (breachLoop n0 ds s).state.closed, x ∈ s.closed ∨ x ∈ s.mav_outputs.map Conn.id) ∧
    ∀ x ∈ (breachLoop n0 ds s).state.mav_outputs.map Conn.id,
      x ∈ s.mav_outputs.map Conn.id := by
  induction ds generalizing s with
  | nil =>
    by_cases h : s.devices.length = n0 <;>
      simp only [breachLoop, h, if_true, if_false, reduceIte] <;>
      exact ⟨trivial, fun x hx => Or.inl hx, fun x hx => hx⟩
  | cons d rest ih =>
    by_cases h : s.devices.length = n0
    · simp only [breachLoop, if_pos h]
      have hstep := handle_remove_frame d s
      have hrest := ih (handle_remove d s)
      refine ⟨hrest.1.trans hstep.1, ?_, ?_⟩
      · intro x hx
        rcases hrest.2.1 x hx with hc | ho
        · exact hstep.2.1 x hc
        · exact Or.inr (hstep.2.2 x ho)
      · intro x hx
        exact hstep.2.2 x (hrest.2.2 x hx)
    · simp only [breachLoop, h, if_false, reduceIte]
      exact ⟨trivial, fun x hx => Or.inl hx, fun x hx => hx⟩

/-- C1: the claim says a FENCE_STATUS message with an active breach and
TrackedDeviceSet = {A, B} removes both devices and empties the set.  The
code instead mutates `self._devices` (via `discard` inside `handle_remove`)
while iterating it, so after the first device is torn down the set iterator
raises `RuntimeError: Set changed size during iteration`: only one device is
removed, and the other remains tracked with its connection still live.
This theorem evaluates the embedding at that failing input. -/
theorem C1_breach_teardown_crashes_after_first_device :
    (mavlink_packet ⟨"FENCE_STATUS", 1⟩
        ⟨[⟨0, "a"⟩, ⟨1, "b"⟩], [], ["a", "b"], [], [], 2, []⟩).raised = true ∧
    (mavlink_packet ⟨"FENCE_STATUS", 1⟩
        ⟨[⟨0, "a"⟩, ⟨1, "b"⟩], [], ["a", "b"], [], [], 2, []⟩).state.devices = ["b"] ∧
    (mavlink_packet ⟨"FENCE_STATUS", 1⟩
        ⟨[⟨0, "a"⟩, ⟨1, "b"⟩], [], ["a", "b"], [], [], 2, []⟩).state.mav_outputs =
      [⟨1, "b"⟩] ∧
    (mavlink_packet ⟨"FENCE_STATUS", 1⟩
        ⟨[⟨0, "a"⟩, ⟨1, "b"⟩], [], ["a", "b"], [], [], 2, []⟩).state.closed = [0] := by
  decide

/-- C2: the claim says `breaker sysid <sysid> <deviceId>` (three tokens)
delegates to the identity-route operation and completes without an uncaught
error.  The dispatcher instead calls `self.handle_breaker(*args[1:])`, a
method that exists nowhere, so every correctly-sized `sysid` command raises
`AttributeError` and `handle_sysid` is never reached. -/
theorem C2_sysid_command_raises_attribute_error (connects : String → Bool)
    (a b : String) (s : MPState) :
    handle_command connects ["sysid", a, b] s = .error PyErr.attributeError := rfl

/-- C3 counterexample: with live connections at addresses x, y, x, the call
`remove "x"` pops the first match (index 0) and then, scanning on over the
shifted list, also pops the connection with identity 2 — two removals in one
call, refuting that `remove` never removes another connection in the same
call. -/
theorem C3_counterexample :
    (⟨2, "x"⟩ : Conn) ∈
      (⟨[⟨0, "x"⟩, ⟨1, "y"⟩, ⟨2, "x"⟩], [], [], [], [], 3, []⟩ : MPState).mav_outputs ∧
    (handle_remove "x"
        ⟨[⟨0, "x"⟩, ⟨1, "y"⟩, ⟨2, "x"⟩], [], [], [], [], 3, []⟩).mav_outputs =
      [⟨1, "y"⟩] ∧
    (handle_remove "x"
        ⟨[⟨0, "x"⟩, ⟨1, "y"⟩, ⟨2, "x"⟩], [], [], [], [], 3, []⟩).closed = [0, 2] := by
  decide

/-- C3 amended: `remove(selector)` removes and closes the first live
connection whose position-as-string or address equals the selector; when no
later position of the shifted list also matches, it is the only one removed
(the scan continues after a pop and may remove further matching connections,
as the counterexample shows).  When nothing matches, the whole state is
untouched and no error is raised. -/
theorem C3_remove_first_match_amended (s : MPState) (sel : String) :
    ((∀ (k : Nat) (hk : k < s.mav_outputs.length),
        matchSel sel k (s.mav_outputs.get ⟨k, hk⟩) = false) →
      handle_remove sel s = s) ∧
    (∀ (i : Nat) (hi : i < s.mav_outputs.length),
      matchSel sel i (s.mav_outputs.get ⟨i, hi⟩) = true →
      (∀ (j : Nat) (hj : j < s.mav_outputs.length), j ≠ i →
        matchSel sel j (s.mav_outputs.get ⟨j, hj⟩) = false) →
      (handle_remove sel s).mav_outputs = s.mav_outputs.eraseIdx i ∧
      (s.mav_outputs.get ⟨i, hi⟩).id ∈ (handle_remove sel s).closed ∧
      (handle_remove sel s).devices = s.devices.erase sel) := by
  constructor
  · intro hall
    have hno : scanRemove sel 0 s.mav_outputs = (s.mav_outputs, []) := by
      apply scanRemove_noMatch
      intro k hk
      simpa using hall k hk
    simp [handle_remove, hno]
  · intro i hi hmi hu
    have hsc : scanRemove sel 0 s.mav_outputs =
        (s.mav_outputs.eraseIdx i, [s.mav_outputs.get ⟨i, hi⟩]) := by
      apply scanRemove_unique sel 0 s.mav_outputs i hi
      · simpa using hmi
      · intro j hj hne
        simpa using hu j hj hne
    refine ⟨?_, ?_, ?_⟩ <;> simp [handle_remove, hsc]

/-- C3 witness: a registry whose only match for selector x sits at position
1; exactly that connection is removed and closed, and the tracked device x
is discarded. -/
theorem C3_witness :
    (handle_remove "x" ⟨[⟨0, "y"⟩, ⟨1, "x"⟩], [], ["x"], [], [], 2, []⟩).mav_outputs =
      [⟨0, "y"⟩] ∧
    (1 : Nat) ∈ (handle_remove "x"
      ⟨[⟨0, "y"⟩, ⟨1, "x"⟩], [], ["x"], [], [], 2, []⟩).closed ∧
    (handle_remove "x" ⟨[⟨0, "y"⟩, ⟨1, "x"⟩], [], ["x"], [], [], 2, []⟩).devices = [] := by
  have h := (C3_remove_first_match_amended
      ⟨[⟨0, "y"⟩, ⟨1, "x"⟩], [], ["x"], [], [], 2, []⟩ "x").2 1
    (by decide) (by decide) (by decide)
  exact ⟨h.1, h.2.1, h.2.2⟩

/-- C4 counterexample: with d tracked but no matching live connection (the
live list is empty), `remove d` leaves d in TrackedDeviceSet — the
`discard` sits inside the match branch of the loop and never runs, refuting
removal from the tracked set regardless of whether a connection matched. -/
theorem C4_counterexample :
    "d" ∈ (handle_remove "d" ⟨[], [], ["d"], [], [], 0, []⟩).devices := by
  decide

/-- C4 amended: `remove d` discards d from TrackedDeviceSet exactly when
some live connection matches the selector: with no match the tracked set is
unchanged (so d can stay tracked), and with a match d is no longer a member
afterwards. -/
theorem C4_tracked_discard_amended (s : MPState) (d : String) :
    ((∀ (k : Nat) (hk : k < s.mav_outputs.length),
        matchSel d k (s.mav_outputs.get ⟨k, hk⟩) = false) →
      (handle_remove d s).devices = s.devices) ∧
    ((∃ (i : Nat) (hi : i < s.mav_outputs.length),
        matchSel d i (s.mav_outputs.get ⟨i, hi⟩) = true) →
      s.devices.Nodup → d ∉ (handle_remove d s).devices) := by
  constructor
  · intro hall
    have hno : scanRemove d 0 s.mav_outputs = (s.mav_outputs, []) := by
      apply scanRemove_noMatch
      intro k hk
      simpa using hall k hk
    simp [handle_remove, hno]
  · rintro ⟨i, hi, hmi⟩ hnd
    have hne : (scanRemove d 0 s.mav_outputs).2 ≠ [] := by
      apply scanRemove_snd_ne_nil d 0 s.mav_outputs i hi
      simpa using hmi
    simp only [handle_remove, hne, if_false, reduceIte]
    exact hnd.not_mem_erase

/-- C4 witness: with a matching connection present, the device is dropped
from the tracked set by `remove`. -/
theorem C4_witness :
    "d" ∉ (handle_remove "d" ⟨[⟨0, "d"⟩], [], ["d"], [], [], 1, []⟩).devices :=
  (C4_tracked_discard_amended ⟨[⟨0, "d"⟩], [], ["d"], [], [], 1, []⟩ "d").2
    ⟨0, by decide, by decide⟩ (by decide)

/-- C5 counterexample: a FENCE_STATUS message with the nonzero breach value
2 and a tracked device with a live connection triggers nothing — the code
compares `m.breach_status == 1`, not nonzero, refuting that every nonzero
breach value runs the teardown. -/
theorem C5_counterexample :
    mavlink_packet ⟨"FENCE_STATUS", 2⟩ ⟨[⟨0, "a"⟩], [], ["a"], [], [], 1, []⟩ =
      ⟨false, ⟨[⟨0, "a"⟩], [], ["a"], [], [], 1, []⟩⟩ := by
  decide

/-- C5 amended: the breach teardown is attempted exactly when the message is
a FENCE_STATUS report with breach value equal to 1: every other message
(including FENCE_STATUS with any other breach value, zero or nonzero)
leaves the state untouched, while a breach value of 1 with a tracked device
whose connection is live closes that connection. -/
theorem C5_trigger_amended (m : Msg) (s : MPState) :
    (¬(m.msgtype = "FENCE_STATUS" ∧ m.breach_status = 1) →
      mavlink_packet m s = ⟨false, s⟩) ∧
    (∀ (d : String) (c : Conn), m.msgtype = "FENCE_STATUS" → m.breach_status = 1 →
      s.devices = [d] → s.mav_outputs = [c] → c.address = d →
      c.id ∈ (mavlink_packet m s).state.closed) := by
  constructor
  · intro h
    simp [mavlink_packet, h]
  · intro d c hty hbr hdev hout haddr
    have hm : matchSel d 0 c = true := by
      simp [matchSel, haddr]
    simp only [mavlink_packet, hty, hbr, and_self, if_true, reduceIte]
    simp only [hdev, hout]
    simp only [breachLoop, List.length_cons, List.length_nil, if_true, reduceIte,
      handle_remove, hdev, hout, scanRemove_last_match d 0 c hm]
    simp [breachLoop]

/-- C5 witness: a HEARTBEAT message is ignored, and a FENCE_STATUS message
with breach value 1 closes the tracked device's live connection. -/
theorem C5_witness :
    mavlink_packet ⟨"HEARTBEAT", 1⟩ ⟨[⟨0, "a"⟩], [], ["a"], [], [], 1, []⟩ =
      ⟨false, ⟨[⟨0, "a"⟩], [], ["a"], [], [], 1, []⟩⟩ ∧
    (0 : Nat) ∈ (mavlink_packet ⟨"FENCE_STATUS", 1⟩
      ⟨[⟨0, "a"⟩], [], ["a"], [], [], 1, []⟩).state.closed :=
  ⟨(C5_trigger_amended ⟨"HEARTBEAT", 1⟩
      ⟨[⟨0, "a"⟩], [], ["a"], [], [], 1, []⟩).1 (by decide),
   (C5_trigger_amended ⟨"FENCE_STATUS", 1⟩
      ⟨[⟨0, "a"⟩], [], ["a"], [], [], 1, []⟩).2 "a" ⟨0, "a"⟩ rfl rfl rfl rfl rfl⟩

/-- C6: when link establishment fails inside `add`, the handler prints the
failure and mutates nothing: live-connection list, tracked-device set,
identity-route map, closed set and registered descriptors are exactly as
before the call. -/
theorem C6_add_failure_no_mutation (connects : String → Bool) (d : String)
    (s : MPState) (hfail : connects d = false) :
    (handle_add connects d s).mav_outputs = s.mav_outputs ∧
    (handle_add connects d s).devices = s.devices ∧
    (handle_add connects d s).sysid_outputs = s.sysid_outputs ∧
    (handle_add connects d s).child_fds = s.child_fds ∧
    (handle_add connects d s).closed = s.closed ∧
    ("Breaker failed to connect to " ++ d) ∈ (handle_add connects d s).printed := by
  simp [handle_add, hfail]

/-- C6 witness: the scenario of the spec — an `add` whose establishment
fails leaves the empty registry empty and reports the failure. -/
theorem C6_witness :
    (handle_add (fun _ => false) "udp:1.2.3.4:14550"
        ⟨[], [], [], [], [], 0, []⟩).mav_outputs = [] ∧
    (handle_add (fun _ => false) "udp:1.2.3.4:14550"
        ⟨[], [], [], [], [], 0, []⟩).devices = [] ∧
    (handle_add (fun _ => false) "udp:1.2.3.4:14550"
        ⟨[], [], [], [], [], 0, []⟩).sysid_outputs = [] ∧
    (handle_add (fun _ => false) "udp:1.2.3.4:14550"
        ⟨[], [], [], [], [], 0, []⟩).child_fds = [] ∧
    (handle_add (fun _ => false) "udp:1.2.3.4:14550"
        ⟨[], [], [], [], [], 0, []⟩).closed = [] ∧
    ("Breaker failed to connect to " ++ "udp:1.2.3.4:14550") ∈
      (handle_add (fun _ => false) "udp:1.2.3.4:14550"
        ⟨[], [], [], [], [], 0, []⟩).printed :=
  C6_add_failure_no_mutation (fun _ => false) "udp:1.2.3.4:14550"
    ⟨[], [], [], [], [], 0, []⟩ rfl

/-- C7 counterexample: device "0" had not been added (it is not tracked and
no live connection carries that address), yet `add "0"` followed by
`remove "0"` does not restore the live-connection list: the selector "0"
matches positionally first, so `remove` pops the pre-existing connection at
index 0 and leaves the newly added one behind. -/
theorem C7_counterexample :
    "0" ∉ (⟨[⟨5, "X"⟩], [], ["X"], [], [], 6, []⟩ : MPState).devices ∧
    (handle_remove "0" (handle_add (fun _ => true) "0"
        ⟨[⟨5, "X"⟩], [], ["X"], [], [], 6, []⟩)).mav_outputs ≠
      (⟨[⟨5, "X"⟩], [], ["X"], [], [], 6, []⟩ : MPState).mav_outputs := by
  decide

/-- C7 amended: the add-then-remove round trip restores the live-connection
list and the tracked-device set, provided the fresh device identifier d
collides with nothing the selector scan could hit first: d is not tracked,
no existing live connection has address d, and d is not the string form of
a position of the existing list. -/
theorem C7_roundtrip_amended (connects : String → Bool) (d : String) (s : MPState)
    (hok : connects d = true) (hdev : d ∉ s.devices)
    (haddr : ∀ c_ ∈ s.mav_outputs, c_.address ≠ d)
    (hidx : ∀ i : Nat, i < s.mav_outputs.length → toString i ≠ d) :
    (handle_remove d (handle_add connects d s)).mav_outputs = s.mav_outputs ∧
    (handle_remove d (handle_add connects d s)).devices = s.devices := by
  have hadd : handle_add connects d s =
      { s with
          mav_outputs := s.mav_outputs ++ [⟨s.nextId, d⟩]
          child_fds := s.child_fds ++ [s.nextId]
          devices := s.devices ++ [d]
          nextId := s.nextId + 1
          printed := s.printed ++ ["Adding breaker " ++ d] } := by
    simp [handle_add, hok, insertDevice, hdev]
  have hlen : s.mav_outputs.length < (s.mav_outputs ++ [(⟨s.nextId, d⟩ : Conn)]).length := by
    simp
  have hget : (s.mav_outputs ++ [(⟨s.nextId, d⟩ : Conn)]).get
      ⟨s.mav_outputs.length, hlen⟩ = (⟨s.nextId, d⟩ : Conn) := by
    simp [List.get_eq_getElem, List.getElem_concat_length]
  have hsc : scanRemove d 0 (s.mav_outputs ++ [(⟨s.nextId, d⟩ : Conn)]) =
      ((s.mav_outputs ++ [(⟨s.nextId, d⟩ : Conn)]).eraseIdx s.mav_outputs.length,
        [(s.mav_outputs ++ [(⟨s.nextId, d⟩ : Conn)]).get ⟨s.mav_outputs.length, hlen⟩]) := by
    apply scanRemove_unique d 0 _ s.mav_outputs.length hlen
    · rw [Nat.zero_add, hget]
      simp [matchSel]
    · intro j hj hne
      have hjlt : j < s.mav_outputs.length := by
        have : j < s.mav_outputs.length + 1 := by simpa using hj
        omega
      rw [Nat.zero_add, List.get_append j hjlt, matchSel_eq_false]
      exact ⟨hidx j hjlt, haddr (s.mav_outputs.get ⟨j, hjlt⟩) (List.get_mem _ _ _)⟩
  constructor
  · rw [hadd]
    simp only [handle_remove, hsc]
    exact eraseIdx_append_len s.mav_outputs (⟨s.nextId, d⟩ : Conn)
  · rw [hadd]
    simp only [handle_remove, hsc]
    have hne : ([(s.mav_outputs ++ [(⟨s.nextId, d⟩ : Conn)]).get
        ⟨s.mav_outputs.length, hlen⟩] : List Conn) ≠ [] := by simp
    simp only [hne, if_false, reduceIte]
    rw [List.erase_append_right _ hdev]
    simp

/-- C7 witness: adding a fresh device over a one-connection registry and
removing it restores both collections. -/
theorem C7_witness :
    (handle_remove "udp:9" (handle_add (fun _ => true) "udp:9"
        ⟨[⟨0, "X"⟩], [], ["X"], [], [], 1, []⟩)).mav_outputs = [⟨0, "X"⟩] ∧
    (handle_remove "udp:9" (handle_add (fun _ => true) "udp:9"
        ⟨[⟨0, "X"⟩], [], ["X"], [], [], 1, []⟩)).devices = ["X"] :=
  C7_roundtrip_amended (fun _ => true) "udp:9" ⟨[⟨0, "X"⟩], [], ["X"], [], [], 1, []⟩
    rfl (by decide) (by decide) (by decide)

/-- C8: storing an identity route twice for the same sysid (both
establishments succeeding) leaves exactly the second connection routed for
that sysid, the first connection's close having been invoked (while the
second stays open), and the identity-route map keeps duplicate-free keys —
at most one connection per identity — after each call.  The freshness
hypotheses say no already-closed identity and no already-routed connection
collides with the two fresh handles. -/
theorem C8_sysid_route_replacement (connects : String → Bool) (sy d1 d2 : String)
    (s : MPState) (h1 : connects d1 = true) (h2 : connects d2 = true)
    (hc : ∀ i ∈ s.closed, i < s.nextId)
    (hr : ∀ p ∈ s.sysid_outputs, p.2.id < s.nextId)
    (hk : (s.sysid_outputs.map Prod.fst).Nodup) :
    lookupRoute sy (handle_sysid connects sy d2 (handle_sysid connects sy d1 s)).sysid_outputs
        = some ⟨s.nextId + 1, d2⟩ ∧
    s.nextId ∈ (handle_sysid connects sy d2 (handle_sysid connects sy d1 s)).closed ∧
    ¬(s.nextId + 1) ∈ (handle_sysid connects sy d2 (handle_sysid connects sy d1 s)).closed ∧
    ((handle_sysid connects sy d1 s).sysid_outputs.map Prod.fst).Nodup ∧
    ((handle_sysid connects sy d2 (handle_sysid connects sy d1 s)).sysid_outputs.map
      Prod.fst).Nodup := by
  have hs1out : (handle_sysid connects sy d1 s).sysid_outputs =
      setRoute sy ⟨s.nextId, d1⟩ s.sysid_outputs := by
    simp [handle_sysid, h1]
  have hs1next : (handle_sysid connects sy d1 s).nextId = s.nextId + 1 := by
    simp [handle_sysid, h1]
  have hs1closed : (handle_sysid connects sy d1 s).closed =
      s.closed ++ (match lookupRoute sy s.sysid_outputs with
        | some old => [old.id]
        | none => []) := by
    simp [handle_sysid, h1]
  have hlk1 : lookupRoute sy (handle_sysid connects sy d1 s).sysid_outputs =
      some ⟨s.nextId, d1⟩ := by
    rw [hs1out]
    exact lookupRoute_setRoute_self sy _ _
  have hgen_out : ∀ t : MPState, (handle_sysid connects sy d2 t).sysid_outputs =
      setRoute sy ⟨t.nextId, d2⟩ t.sysid_outputs := by
    intro t
    simp [handle_sysid, h2]
  have hgen_closed : ∀ t : MPState, (handle_sysid connects sy d2 t).closed =
      t.closed ++ (match lookupRoute sy t.sysid_outputs with
        | some old => [old.id]
        | none => []) := by
    intro t
    simp [handle_sysid, h2]
  have hs2out : (handle_sysid connects sy d2 (handle_sysid connects sy d1 s)).sysid_outputs =
      setRoute sy ⟨s.nextId + 1, d2⟩ (handle_sysid connects sy d1 s).sysid_outputs := by
    rw [hgen_out, hs1next]
  have hs2closed : (handle_sysid connects sy d2 (handle_sysid connects sy d1 s)).closed =
      (handle_sysid connects sy d1 s).closed ++ [s.nextId] := by
    rw [hgen_closed, hlk1]
  refine ⟨?_, ?_, ?_, ?_, ?_⟩
  · rw [hs2out]
    exact lookupRoute_setRoute_self sy _ _
  · rw [hs2closed]
    simp
  · rw [hs2closed, hs1closed]
    intro hmem
    rcases List.mem_append.mp hmem with hmem1 | hmem1
    · rcases List.mem_append.mp hmem1 with hmem2 | hmem2
      · have := hc _ hmem2
        omega
      · rcases hlp : lookupRoute sy s.sysid_outputs with _ | old
        · rw [hlp] at hmem2
          simp at hmem2
        · rw [hlp] at hmem2
          simp at hmem2
          have hro : old.id < s.nextId := hr (sy, old) (lookupRoute_mem sy s.sysid_outputs old hlp)
          omega
    · simp at hmem1
  · rw [hs1out]
    exact setRoute_keys_nodup sy _ _ hk
  · rw [hs2out, hs1out]
    exact setRoute_keys_nodup sy _ _ (setRoute_keys_nodup sy _ _ hk)

/-- C8 witness: two identity-route stores for sysid 7 on an empty state
leave the second connection routed, the first closed and the second open. -/
theorem C8_witness :
    lookupRoute "7" (handle_sysid (fun _ => true) "7" "b"
        (handle_sysid (fun _ => true) "7" "a"
          ⟨[], [], [], [], [], 0, []⟩)).sysid_outputs = some ⟨1, "b"⟩ ∧
    (0 : Nat) ∈ (handle_sysid (fun _ => true) "7" "b"
        (handle_sysid (fun _ => true) "7" "a"
          ⟨[], [], [], [], [], 0, []⟩)).closed ∧
    ¬(1 : Nat) ∈ (handle_sysid (fun _ => true) "7" "b"
        (handle_sysid (fun _ => true) "7" "a"
          ⟨[], [], [], [], [], 0, []⟩)).closed ∧
    ((handle_sysid (fun _ => true) "7" "a"
        ⟨[], [], [], [], [], 0, []⟩).sysid_outputs.map Prod.fst).Nodup ∧
    ((handle_sysid (fun _ => true) "7" "b"
        (handle_sysid (fun _ => true) "7" "a"
          ⟨[], [], [], [], [], 0, []⟩)).sysid_outputs.map Prod.fst).Nodup :=
  C8_sysid_route_replacement (fun _ => true) "7" "a" "b"
    ⟨[], [], [], [], [], 0, []⟩ rfl rfl (by simp) (by simp) (by simp)

/-- C9: with at least two live connections (distinct handle identities, as
any sequence of `add` calls produces), `remove "0"` pops and closes the
first connection, the former second connection shifts to the head, and a
second `remove "0"` pops and closes exactly that former index-1
connection. -/
theorem C9_index_zero_removal_shift (s : MPState) (c0 c1 : Conn) (rest : List Conn)
    (hout : s.mav_outputs = c0 :: c1 :: rest)
    (hids : ((c0 :: c1 :: rest).map Conn.id).Nodup) :
    c0.id ∈ (handle_remove "0" s).closed ∧
    ¬c0.id ∈ ((handle_remove "0" s).mav_outputs.map Conn.id) ∧
    (handle_remove "0" s).mav_outputs.head? = some c1 ∧
    c1.id ∈ (handle_remove "0" (handle_remove "0" s)).closed ∧
    ¬c1.id ∈ ((handle_remove "0" (handle_remove "0" s)).mav_outputs.map Conn.id) := by
  have hm0 : ∀ x : Conn, matchSel "0" 0 x = true := by
    intro x
    simp [matchSel, show toString (0 : Nat) = "0" from rfl]
  rw [List.map_cons, List.map_cons, List.nodup_cons, List.nodup_cons] at hids
  obtain ⟨h01, h1r, -⟩ := hids
  have hsub1 : ∀ y ∈ (scanRemove "0" 1 rest).1, y ∈ rest :=
    (scanRemove_subsets "0" 1 rest).1
  have hscan0 : scanRemove "0" 0 s.mav_outputs =
      (c1 :: (scanRemove "0" 1 rest).1, c0 :: (scanRemove "0" 1 rest).2) := by
    rw [hout, scanRemove_cons_match "0" 0 c0 c1 rest (hm0 c0)]
  have houtT : (handle_remove "0" s).mav_outputs = c1 :: (scanRemove "0" 1 rest).1 := by
    simp only [handle_remove, hscan0]
  have hclosedT : (handle_remove "0" s).closed =
      s.closed ++ (c0 :: (scanRemove "0" 1 rest).2).map Conn.id := by
    simp only [handle_remove, hscan0]
  refine ⟨?_, ?_, ?_, ?_, ?_⟩
  · rw [hclosedT]
    simp
  · rw [houtT, List.map_cons]
    intro hmem
    rcases List.mem_cons.mp hmem with h | h
    · exact h01 (List.mem_cons.mpr (Or.inl h))
    · rcases List.mem_map.mp h with ⟨y, hy, hxy⟩
      exact h01 (List.mem_cons.mpr (Or.inr (List.mem_map.mpr ⟨y, hsub1 y hy, hxy⟩)))
  · rw [houtT]
    rfl
  · simp only [handle_remove, hscan0]
    cases hR1 : (scanRemove "0" 1 rest).1 with
    | nil =>
      rw [scanRemove_last_match "0" 0 c1 (hm0 c1)]
      simp
    | cons a as =>
      rw [scanRemove_cons_match "0" 0 c1 a as (hm0 c1)]
      simp
  · simp only [handle_remove, hscan0]
    cases hR1 : (scanRemove "0" 1 rest).1 with
    | nil =>
      rw [scanRemove_last_match "0" 0 c1 (hm0 c1)]
      simp
    | cons a as =>
      rw [scanRemove_cons_match "0" 0 c1 a as (hm0 c1)]
      have ha : a ∈ rest := hsub1 a (by rw [hR1]; exact List.mem_cons_self a as)
      intro hmem
      simp only [List.map_cons, List.mem_cons] at hmem
      rcases hmem with h | h
      · exact h1r (List.mem_map.mpr ⟨a, ha, h.symm⟩)
      · rcases List.mem_map.mp h with ⟨y, hy, hxy⟩
        have hyas : y ∈ as := (scanRemove_subsets "0" 1 as).1 y hy
        have hyrest : y ∈ rest := hsub1 y (by rw [hR1]; exact List.mem_cons_of_mem a hyas)
        exact h1r (List.mem_map.mpr ⟨y, hyrest, hxy⟩)

/-- C9 witness: three live connections; `remove "0"` closes identity 0 and
shifts identity 1 to the head, and a second `remove "0"` closes identity
1. -/
theorem C9_witness :
    (0 : Nat) ∈ (handle_remove "0"
        ⟨[⟨0, "p"⟩, ⟨1, "q"⟩, ⟨2, "r"⟩], [], [], [], [], 3, []⟩).closed ∧
    ¬(0 : Nat) ∈ ((handle_remove "0"
        ⟨[⟨0, "p"⟩, ⟨1, "q"⟩, ⟨2, "r"⟩], [], [], [], [], 3, []⟩).mav_outputs.map Conn.id) ∧
    (handle_remove "0"
        ⟨[⟨0, "p"⟩, ⟨1, "q"⟩, ⟨2, "r"⟩], [], [], [], [], 3, []⟩).mav_outputs.head? =
      some ⟨1, "q"⟩ ∧
    (1 : Nat) ∈ (handle_remove "0" (handle_remove "0"
        ⟨[⟨0, "p"⟩, ⟨1, "q"⟩, ⟨2, "r"⟩], [], [], [], [], 3, []⟩)).closed ∧
    ¬(1 : Nat) ∈ ((handle_remove "0" (handle_remove "0"
        ⟨[⟨0, "p"⟩, ⟨1, "q"⟩, ⟨2, "r"⟩], [], [], [], [], 3, []⟩)).mav_outputs.map Conn.id) :=
  C9_index_zero_removal_shift ⟨[⟨0, "p"⟩, ⟨1, "q"⟩, ⟨2, "r"⟩], [], [], [], [], 3, []⟩
    ⟨0, "p"⟩ ⟨1, "q"⟩ [⟨2, "r"⟩] rfl (by decide)

/-- C10: the breach response never touches the identity-route map — after
`mavlink_packet` on any message and any state, every stored sysid route is
still present and its connection still open (its identity newly closed
nowhere), even when the routed device identifier is in the tracked set; the
teardown searches only the live-connection list. -/
theorem C10_breach_keeps_sysid_routes (m : Msg) (s : MPState) (sy : String) (c : Conn)
    (_hmem : (sy, c) ∈ s.sysid_outputs)
    (hclosed : ¬c.id ∈ s.closed)
    (hout : ¬c.id ∈ s.mav_outputs.map Conn.id) :
    (mavlink_packet m s).state.sysid_outputs = s.sysid_outputs ∧
    ¬c.id ∈ (mavlink_packet m s).state.closed := by
  by_cases h : m.msgtype = "FENCE_STATUS" ∧ m.breach_status = 1
  · have hred : mavlink_packet m s = breachLoop
        ({ s with printed := s.printed ++
          ["Fence breach detected. Disconnecting breaker."] } : MPState).devices.length
        ({ s with printed := s.printed ++
          ["Fence breach detected. Disconnecting breaker."] } : MPState).devices
        { s with printed := s.printed ++
          ["Fence breach detected. Disconnecting breaker."] } := by
      simp [mavlink_packet, h]
    rw [hred]
    have hfr := breachLoop_frame
      ({ s with printed := s.printed ++
        ["Fence breach detected. Disconnecting breaker."] } : MPState).devices.length
      ({ s with printed := s.printed ++
        ["Fence breach detected. Disconnecting breaker."] } : MPState).devices
      { s with printed := s.printed ++
        ["Fence breach detected. Disconnecting breaker."] }
    refine ⟨hfr.1, ?_⟩
    intro hx
    rcases hfr.2.1 c.id hx with hcl | ho
    · exact hclosed hcl
    · exact hout ho
  · simp only [mavlink_packet, h, if_false, reduceIte]
    exact ⟨trivial, hclosed⟩

/-- C10 witness: a sysid-routed connection whose device identifier is also
tracked survives a breach response that tears the live list down. -/
theorem C10_witness :
    (mavlink_packet ⟨"FENCE_STATUS", 1⟩
        ⟨[⟨0, "d"⟩], [("7", ⟨9, "d"⟩)], ["d"], [], [], 10, []⟩).state.sysid_outputs =
      [("7", ⟨9, "d"⟩)] ∧
    ¬(9 : Nat) ∈ (mavlink_packet ⟨"FENCE_STATUS", 1⟩
        ⟨[⟨0, "d"⟩], [("7", ⟨9, "d"⟩)], ["d"], [], [], 10, []⟩).state.closed :=
  C10_breach_keeps_sysid_routes ⟨"FENCE_STATUS", 1⟩
    ⟨[⟨0, "d"⟩], [("7", ⟨9, "d"⟩)], ["d"], [], [], 10, []⟩ "7" ⟨9, "d"⟩
    (by decide) (by decide) (by decide)
